import Mathlib

/-!
# acode-python-fmt: the Ruff formatter plugin (`src/main.js`)

A shallow embedding of the class `RuffFormatter`.  The plugin owns very little
logic of its own; what it owns is sequencing: which host and engine operations
are invoked, in which order, with which arguments, and what is written back
into the objects the host hands over.  The embedding therefore makes the
objects the plugin reads and writes explicit:

* the settings record stored under `appSettings.value[plugin.id]`,
* the field `this.workspace`,
* `editorManager.activeFile` and `editorManager.editor` (with its session),
* a log of the calls made to the host (`loader`, `acode`, `appSettings`) and
  to the engine (`new Workspace`, `check`, `format`, `free`).

The engine (`@astral-sh/ruff-wasm-web`) and the editor session are external.
Their behaviour is a parameter (`Env`): what `check` and `format` return or
throw, whether `new Workspace` accepts its options, whether `free` returns, and
what `session.setValue` does to the undo manager and to the arrays it refers
to.  The `loader`, `acode` and `appSettings` calls and the annotation calls of
the session are taken to return normally; annotations change through
`clearAnnotations` and `setAnnotations` only.
-/

namespace RuffFormatter

/-! ## JavaScript values and plain objects -/

/-- A JavaScript value as far as the plugin handles one.  Arrays and objects are
    only ever passed around by the plugin, never inspected, so they are
    represented by their identity (`ref`). -/
inductive Val where
  | undefined
  | null
  | bool (b : Bool)
  | num (n : Int)
  | str (s : String)
  | ref (addr : Nat)
  deriving DecidableEq, Repr

/-- A plain object: its own properties in insertion order. -/
abbrev Record := List (String × Val)

/-- The call `Object.prototype.hasOwnProperty.call(r, k)`. -/
def hasOwnProperty (r : Record) (k : String) : Bool :=
  r.any (fun p => p.1 == k)

/-- The read `r[k]` of an own property; `undefined` when `r` has none. -/
def getProp (r : Record) (k : String) : Val :=
  match r.lookup k with
  | some v => v
  | none => Val.undefined

/-- Overwrite the first property named `k`, or append it when there is none. -/
def assign : Record → String → Val → Record
  | [], k, v => [(k, v)]
  | (k0, v0) :: rest, k, v =>
    if k0 == k then (k, v) :: rest else (k0, v0) :: assign rest k v

/-- The write `r[k] = v`.  An own property named `k` is overwritten; a new one
    is added otherwise, except for `__proto__`, which then goes to the accessor
    inherited from `Object.prototype` and creates no own property. -/
def setProp (r : Record) (k : String) (v : Val) : Record :=
  if k == "__proto__" && !hasOwnProperty r k then r else assign r k v

/-- A thrown `Error`, identified by its `message`. -/
structure JSError where
  message : String
  deriving DecidableEq, Repr

/-! ## Engine -/

/-- The `format` member of the options object given to `new Workspace`. -/
structure FormatOptions where
  /-- Key `"indent-style"`. -/
  indent_style : Val
  /-- Key `"quote-style"`. -/
  quote_style : Val
  /-- Key `"line-ending"`. -/
  line_ending : Val
  /-- Key `"skip-magic-trailing-comma"`. -/
  skip_magic_trailing_comma : Val
  /-- Key `"docstring-code-format"`. -/
  docstring_code_format : Val
  deriving DecidableEq, Repr

/-- The options object given to `new Workspace`. -/
structure Options where
  /-- Key `"line-length"`. -/
  line_length : Val
  /-- Key `"indent-width"`. -/
  indent_width : Val
  format : FormatOptions
  deriving DecidableEq, Repr

/-- An engine handle: the object a `new Workspace(options)` call returned.
    `id` tells handles apart, `freed` records that `free()` ran on it. -/
structure Workspace where
  id : Nat
  options : Options
  freed : Bool
  deriving DecidableEq, Repr

/-- The position member `start_location` of a diagnostic. -/
structure Location where
  row : Int
  column : Int
  deriving DecidableEq, Repr

/-- One element of the array `workspace.check(code)` returns. -/
structure Diagnostic where
  start_location : Location
  code : String
  message : String
  deriving DecidableEq, Repr

/-- One element of the array given to `session.setAnnotations`. -/
structure AnnotationEntry where
  row : Int
  column : Int
  text : String
  type : String
  deriving DecidableEq, Repr

/-- What the engine answers: each call either returns or throws. -/
structure Engine where
  /-- The call `new Workspace(options)`: the options are accepted or rejected. -/
  create : Options → Except JSError Unit
  check : Workspace → String → Except JSError (List Diagnostic)
  format : Workspace → String → Except JSError String
  /-- The call `free()` on a handle, in the state the handle was in. -/
  free : Workspace → Except JSError Unit

/-! ## Editor session -/

/-- The array objects of the editor: address and elements.  A field that holds
    an array holds `Val.ref` of its address, so two fields can hold one array. -/
abbrev Heap := List (Nat × List Val)

/-- The elements of the array at address `a`. -/
def Heap.read (h : Heap) (a : Nat) : List Val :=
  match h.lookup a with
  | some items => items
  | none => []

/-- Replace the elements of the array at address `a`. -/
def Heap.write : Heap → Nat → List Val → Heap
  | [], a, items => [(a, items)]
  | (a0, items0) :: rest, a, items =>
    if a0 == a then (a, items) :: rest else (a0, items0) :: Heap.write rest a items

/-- The elements of the array a field value refers to; none for a value that
    is no array. -/
def Heap.elements (h : Heap) (v : Val) : List Val :=
  match v with
  | Val.ref a => h.read a
  | _ => []

/-- The undo manager of a session: its own properties, among them
    `$undoStack`, `$redoStack`, `$rev` and `$mark`. -/
structure UndoManager where
  own : Record
  deriving DecidableEq, Repr

/-- A call the plugin made on the session. -/
inductive SessionCall where
  | clearAnnotations
  | setAnnotations (items : List AnnotationEntry)
  | setValue (text : String)
  deriving DecidableEq, Repr

/-- The edit session of the editor: document text, displayed annotations,
    undo manager, the arrays the undo manager refers to, and the calls received
    so far. -/
structure Session where
  value : String
  annotations : List AnnotationEntry
  undoManager : UndoManager
  arrays : Heap
  calls : List SessionCall
  deriving DecidableEq, Repr

/-- Everything the plugin takes from outside `main.js`. -/
structure Env where
  /-- The field `id` of `plugin.json`. -/
  pluginId : String
  engine : Engine
  /-- The undo manager and the arrays `session.setValue(text)` leaves behind:
      it may give the manager new field values and may change arrays in place. -/
  setValueUndo : Session → String → UndoManager × Heap

/-- The call `session.clearAnnotations()`. -/
def Session.clearAnnotations (s : Session) : Session :=
  { s with annotations := [], calls := s.calls ++ [SessionCall.clearAnnotations] }

/-- The call `session.setAnnotations(items)`. -/
def Session.setAnnotations (s : Session) (items : List AnnotationEntry) : Session :=
  { s with annotations := items, calls := s.calls ++ [SessionCall.setAnnotations items] }

/-- The call `session.setValue(text)`: the document becomes `text` and the host
    does to the undo manager and its arrays whatever it does. -/
def Session.setValue (env : Env) (s : Session) (text : String) : Session :=
  { s with
    value := text
    undoManager := (env.setValueUndo s text).1
    arrays := (env.setValueUndo s text).2
    calls := s.calls ++ [SessionCall.setValue text] }

/-! ## Plugin state -/

/-- A call the plugin made on the host or on the engine. -/
inductive Event where
  | settingsUpdate (arg : Option Bool)
  | wasmInit (url : String)
  | registerFormatter (id : String) (extensions : List String)
  | unregisterFormatter (id : String)
  | showTitleLoader
  | removeTitleLoader
  | alert (title : String) (text : String)
  | engineNew (w : Workspace)
  | engineNewThrew (options : Options)
  | engineCheck (w : Workspace) (code : String)
  | engineFormat (w : Workspace) (code : String)
  | engineFree (w : Workspace)
  deriving DecidableEq, Repr

/-- The objects the plugin reads and writes. -/
structure State where
  /-- The value `appSettings.value[plugin.id]`; `none` when it is absent. -/
  stored : Option Record
  /-- The field `this.workspace`; `none` while it is `undefined`. -/
  workspace : Option Workspace
  /-- The field `this.baseUrl`. -/
  baseUrl : String
  /-- Whether `editorManager.activeFile` is set. -/
  activeFile : Bool
  /-- The value `editorManager.editor`, given by its session. -/
  editor : Option Session
  /-- Formatters registered with the host: id and extensions. -/
  formatters : List (String × List String)
  /-- Number of `Workspace` objects constructed so far. -/
  nextHandle : Nat
  log : List Event
  deriving DecidableEq, Repr

/-- The outcome of running a method: it returned or threw, and the state it left. -/
abbrev Outcome := Except JSError Unit × State

/-- Append one call to the log. -/
def emit (e : Event) (st : State) : State :=
  { st with log := st.log ++ [e] }

/-- The statement `try { body } catch (error) { handler }`. -/
def tryCatch (body : State → Outcome) (handler : JSError → State → Outcome)
    (st : State) : Outcome :=
  match body st with
  | (Except.ok u, st1) => (Except.ok u, st1)
  | (Except.error e, st1) => handler e st1

/-- The statement `try { body } finally { cleanup }`. -/
def tryFinally (body : State → Outcome) (cleanup : State → State)
    (st : State) : Outcome :=
  match body st with
  | (r, st1) => (r, cleanup st1)

/-! ## The class `RuffFormatter` -/

/-- The record `_saveSetting` stores. -/
def defaultSettings : Record :=
  [ ("indent_style", Val.str "space"),
    ("indent_width", Val.num 4),
    ("line_length", Val.num 88),
    ("line_ending", Val.str "auto"),
    ("quote_style", Val.str "double"),
    ("skip_magic_trailing_comma", Val.bool false),
    ("docstring_code_format", Val.bool false) ]

/-- The method `_saveSetting()`. -/
def _saveSetting (st : State) : State :=
  emit (Event.settingsUpdate (some false)) { st with stored := some defaultSettings }

/-- The body of `constructor()`. -/
def constructor (st : State) : State :=
  match st.stored with
  | none => _saveSetting st
  | some r =>
    if !hasOwnProperty r "line_length" then
      _saveSetting (emit (Event.settingsUpdate (some false)) { st with stored := none })
    else st

/-- The message of the `TypeError` raised by reading a property of `undefined`. -/
def readOfUndefined (name : String) : JSError :=
  ⟨"Cannot read properties of undefined (reading '" ++ name ++ "')"⟩

/-- The options object built in `createWorkspace()`. -/
def createOptions (settings : Record) : Options :=
  { line_length := getProp settings "line_length"
    indent_width := getProp settings "indent_width"
    format :=
      { indent_style := getProp settings "indent_style"
        quote_style := getProp settings "quote_style"
        line_ending := getProp settings "line_ending"
        skip_magic_trailing_comma := getProp settings "skip_magic_trailing_comma"
        docstring_code_format := getProp settings "docstring_code_format" } }

/-- The method `createWorkspace()`: the new handle, or what was thrown: the
    `TypeError` of reading `this.settings.line_length` when there is no settings
    record, or the error of a `new Workspace` that rejects the options. -/
def createWorkspace (env : Env) (st : State) : Except JSError Workspace × State :=
  match st.stored with
  | none => (Except.error (readOfUndefined "line_length"), st)
  | some settings =>
    match env.engine.create (createOptions settings) with
    | Except.error e =>
      (Except.error e, emit (Event.engineNewThrew (createOptions settings)) st)
    | Except.ok _ =>
      let w : Workspace :=
        { id := st.nextHandle, options := createOptions settings, freed := false }
      (Except.ok w, emit (Event.engineNew w) { st with nextHandle := st.nextHandle + 1 })

/-- The call `this.workspace.free()` on the handle `w`: the call is made, the
    handle in `this.workspace` is from then on one that `free()` ran on, and the
    call returns or throws as the engine decides. -/
def freeWorkspace (env : Env) (w : Workspace) (st : State) : Outcome :=
  (env.engine.free w,
    emit (Event.engineFree w) { st with workspace := some { w with freed := true } })

/-- The extensions `init()` registers the formatter for. -/
def extensions : List String := ["py", "pyi", "pyx", "pxd", "pxi", "rpy"]

/-- The method `init()`. -/
def init (env : Env) (st : State) : Outcome :=
  let st1 := emit (Event.wasmInit (st.baseUrl ++ "wasm/ruff_wasm_bg.wasm")) st
  match createWorkspace env st1 with
  | (Except.error e, st2) => (Except.error e, st2)
  | (Except.ok w, st2) =>
    let st3 := { st2 with workspace := some w }
    (Except.ok (),
      emit (Event.registerFormatter env.pluginId extensions)
        { st3 with formatters := st3.formatters ++ [(env.pluginId, extensions)] })

/-- The callback of `diagnostics.map` in `format()`. -/
def toAnnotation (diag : Diagnostic) : AnnotationEntry :=
  { row := diag.start_location.row - 1
    column := diag.start_location.column
    text := diag.code ++ ": " ++ diag.message
    type := "error" }

/-- The method `setValueToEditor(session, formattedCode)`.  `Object.assign`
    copies the own properties of the undo manager, so each captured value is the
    value of the property at that moment: a number, or the array object itself. -/
def setValueToEditor (env : Env) (session : Session) (formattedCode : String) : Session :=
  let copy : Record := session.undoManager.own
  let undoStack := getProp copy "$undoStack"
  let redoStack := getProp copy "$redoStack"
  let rev := getProp copy "$rev"
  let mark := getProp copy "$mark"
  let s1 := session.setValue env formattedCode
  let undoManager := s1.undoManager
  let own1 := setProp undoManager.own "$undoStack" undoStack
  let own2 := setProp own1 "$redoStack" redoStack
  let own3 := setProp own2 "$rev" rev
  let own4 := setProp own3 "$mark" mark
  { s1 with undoManager := { own := own4 } }

/-- The statements of the inner `try` block of `format()`, for the session and
    the text read before it. -/
def formatAttempt (env : Env) (session : Session) (code : String) (st : State) : Outcome :=
  -- const diagnostics = this.workspace?.check(code);
  let checked : Except JSError (Option (List Diagnostic)) × State :=
    match st.workspace with
    | none => (Except.ok none, st)
    | some w =>
      match env.engine.check w code with
      | Except.ok ds => (Except.ok (some ds), emit (Event.engineCheck w code) st)
      | Except.error e => (Except.error e, emit (Event.engineCheck w code) st)
  match checked with
  | (Except.error e, st1) => (Except.error e, st1)
  | (Except.ok diagnostics, st1) =>
    -- if (diagnostics && diagnostics.length > 0) { ... }
    let session1 : Session :=
      match diagnostics with
      | some (d :: ds) => (session.clearAnnotations).setAnnotations ((d :: ds).map toAnnotation)
      | _ => session
    let st2 := { st1 with editor := some session1 }
    -- const res = this.workspace.format(code);
    match st2.workspace with
    | none => (Except.error (readOfUndefined "format"), st2)
    | some w =>
      match env.engine.format w code with
      | Except.error e => (Except.error e, emit (Event.engineFormat w code) st2)
      | Except.ok res =>
        (Except.ok (),
          { emit (Event.engineFormat w code) st2 with
            editor := some (setValueToEditor env session1 res) })

/-- The statements of the outer `try` block of `format()`. -/
def formatBody (env : Env) (st : State) : Outcome :=
  match st.activeFile, st.editor with
  | true, some session =>
    let code := session.value
    tryCatch (formatAttempt env session code)
      (fun error st1 =>
        (Except.ok (), emit (Event.alert "Ruff Plugin" ("Format failed: " ++ error.message)) st1))
      (emit Event.showTitleLoader st)
  | _, _ => (Except.ok (), st)

/-- The method `format()`. -/
def format (env : Env) (st : State) : Outcome :=
  tryFinally (formatBody env) (emit Event.removeTitleLoader) st

/-- The statement `if (this.workspace) { this.workspace.free(); }`. -/
def freeIfPresent (env : Env) (st : State) : Outcome :=
  match st.workspace with
  | some w => freeWorkspace env w st
  | none => (Except.ok (), st)

/-- The call `acode.unregisterFormatter(plugin.id)`. -/
def unregisterFormatter (env : Env) (st : State) : State :=
  emit (Event.unregisterFormatter env.pluginId)
    { st with formatters := st.formatters.filter (fun f => f.1 != env.pluginId) }

/-- The method `destroy()`. -/
def destroy (env : Env) (st : State) : Outcome :=
  match freeIfPresent env st with
  | (Except.error e, st1) => (Except.error e, st1)
  | (Except.ok _, st1) => (Except.ok (), unregisterFormatter env st1)

/-- The callback `cb(key, value)` of `settingsObj`. -/
def cb (env : Env) (key : String) (value : Val) (st : State) : Outcome :=
  match st.stored with
  | none => (Except.error ⟨"Cannot set properties of undefined (setting '" ++ key ++ "')"⟩, st)
  | some settings =>
    let st1 := emit (Event.settingsUpdate none) { st with stored := some (setProp settings key value) }
    match freeIfPresent env st1 with
    | (Except.error e, st2) => (Except.error e, st2)
    | (Except.ok _, st2) =>
      match createWorkspace env st2 with
      | (Except.error e, st3) => (Except.error e, st3)
      | (Except.ok w, st3) => (Except.ok (), { st3 with workspace := some w })

/-! ## Reading the logs -/

/-- The seven fields of the settings record. -/
def requiredFields : List String :=
  ["indent_style", "indent_width", "line_length", "line_ending", "quote_style",
    "skip_magic_trailing_comma", "docstring_code_format"]

/-- The arrays given to `session.setAnnotations`, in call order. -/
def published (calls : List SessionCall) : List (List AnnotationEntry) :=
  calls.filterMap (fun c =>
    match c with
    | SessionCall.setAnnotations items => some items
    | _ => none)

/-- The texts given to `session.setValue`, in call order. -/
def setValueCalls (calls : List SessionCall) : List String :=
  calls.filterMap (fun c =>
    match c with
    | SessionCall.setValue text => some text
    | _ => none)

/-- The alerts shown, as title and text, in call order. -/
def alerts (log : List Event) : List (String × String) :=
  log.filterMap (fun e =>
    match e with
    | Event.alert title text => some (title, text)
    | _ => none)

/-- The handles `check` was invoked on, in call order. -/
def checkCalls (log : List Event) : List (Workspace × String) :=
  log.filterMap (fun e =>
    match e with
    | Event.engineCheck w code => some (w, code)
    | _ => none)

/-- The handles `format` was invoked on, in call order. -/
def formatCalls (log : List Event) : List (Workspace × String) :=
  log.filterMap (fun e =>
    match e with
    | Event.engineFormat w code => some (w, code)
    | _ => none)

/-- The handles `free` was invoked on, in call order. -/
def freeCalls (log : List Event) : List Workspace :=
  log.filterMap (fun e =>
    match e with
    | Event.engineFree w => some w
    | _ => none)

/-! ## Intermediate values -/

/-- The session after the diagnostics step of `format()`. -/
def annotate (session : Session) (ds : List Diagnostic) : Session :=
  match ds with
  | [] => session
  | d :: rest => (session.clearAnnotations).setAnnotations ((d :: rest).map toAnnotation)

/-- The elements of the array that the field `field` of the undo manager holds. -/
def Session.stackElements (s : Session) (field : String) : List Val :=
  s.arrays.elements (getProp s.undoManager.own field)

/-- The handle `cb(key, value)` constructs from the record `s` stored before it. -/
def rebuilt (st : State) (s : Record) (key : String) (value : Val) : Workspace :=
  { id := st.nextHandle, options := createOptions (setProp s key value), freed := false }

/-! ## Sample data -/

/-- A state before anything ran: nothing stored, no handle, no document. -/
def emptyState : State :=
  { stored := none, workspace := none, baseUrl := "/", activeFile := false, editor := none,
    formatters := [], nextHandle := 0, log := [] }

/-- An undo manager whose undo stack is the array at address 1 and whose redo
    stack is the array at address 2. -/
def sampleUndo : UndoManager :=
  { own :=
      [ ("$undoStack", Val.ref 1), ("$redoStack", Val.ref 2), ("$rev", Val.num 7),
        ("$mark", Val.num 3), ("$maxRev", Val.num 7) ] }

/-- Arrays for `sampleUndo`: one group on the undo stack, one on the redo stack. -/
def sampleArrays : Heap :=
  [ (1, [Val.ref 10]), (2, [Val.ref 20]), (10, [Val.str "typed"]), (20, [Val.str "undone"]) ]

/-- A session holding `text`, with one stale annotation on display. -/
def sampleSession (text : String) : Session :=
  { value := text
    annotations := [{ row := 0, column := 0, text := "F401: unused", type := "error" }]
    undoManager := sampleUndo
    arrays := sampleArrays
    calls := [] }

/-- An address above every array of the heap. -/
def Heap.fresh (h : Heap) : Nat :=
  (h.map (fun p => p.1)).foldr max 0 + 1

/-- A host in the manner of the Ace editor.  Its `setValue` first records the
    replacement: a new group is appended to the array that is the undo stack and
    the array that is the redo stack is emptied, both in place.  Then it resets
    the manager: fresh empty stacks, revision and mark 0. -/
def recordThenReset (s : Session) (text : String) : UndoManager × Heap :=
  let group := Heap.fresh s.arrays
  let h1 := Heap.write s.arrays group [Val.str text]
  let h2 :=
    match getProp s.undoManager.own "$undoStack" with
    | Val.ref a => h1.write a (h1.read a ++ [Val.ref group])
    | _ => h1
  let h3 :=
    match getProp s.undoManager.own "$redoStack" with
    | Val.ref a => h2.write a []
    | _ => h2
  let h4 := (h3.write (group + 1) []).write (group + 2) []
  ({ own :=
      setProp
        (setProp
          (setProp (setProp s.undoManager.own "$undoStack" (Val.ref (group + 1)))
            "$redoStack" (Val.ref (group + 2)))
          "$rev" (Val.num 0))
        "$mark" (Val.num 0) },
    h4)

/-- A constructor in the manner of Ruff: a line length outside 1 to 320 is
    rejected. -/
def validateOptions (o : Options) : Except JSError Unit :=
  match o.line_length with
  | Val.num n =>
    if 1 ≤ n ∧ n ≤ 320 then Except.ok ()
    else Except.error ⟨"line-length must be between 1 and 320"⟩
  | _ => Except.error ⟨"invalid type: expected u16"⟩

/-- A `free()` in the manner of the generated bindings: it throws on a handle
    that `free()` already ran on. -/
def freeOnce (w : Workspace) : Except JSError Unit :=
  if w.freed then Except.error ⟨"null pointer passed to rust"⟩ else Except.ok ()

/-- The diagnostic of the worked example. -/
def lineTooLong : Diagnostic :=
  { start_location := { row := 5, column := 2 }, code := "E501", message := "line too long" }

/-- An engine that reports `lineTooLong` on every text and formats to `"x = 1\n"`. -/
def lintEnv : Env :=
  { pluginId := "acode.plugin.ruff"
    engine :=
      { create := validateOptions
        free := freeOnce
        check := fun _ _ => Except.ok [lineTooLong]
        format := fun _ _ => Except.ok "x = 1\n" }
    setValueUndo := recordThenReset }

/-- An engine that reports nothing and formats to `"x = 1\n"`. -/
def cleanEnv : Env :=
  { pluginId := "acode.plugin.ruff"
    engine :=
      { create := validateOptions
        free := freeOnce
        check := fun _ _ => Except.ok []
        format := fun _ _ => Except.ok "x = 1\n" }
    setValueUndo := recordThenReset }

/-- An engine whose `check` throws. -/
def checkThrowsEnv : Env :=
  { pluginId := "acode.plugin.ruff"
    engine :=
      { create := validateOptions
        free := freeOnce
        check := fun _ _ => Except.error ⟨"unreachable"⟩
        format := fun _ _ => Except.ok "x = 1\n" }
    setValueUndo := recordThenReset }

/-- An engine whose `format` throws. -/
def formatThrowsEnv : Env :=
  { pluginId := "acode.plugin.ruff"
    engine :=
      { create := validateOptions
        free := freeOnce
        check := fun _ _ => Except.ok [lineTooLong]
        format := fun _ _ => Except.error ⟨"Expected an expression"⟩ }
    setValueUndo := recordThenReset }

/-- A handle built from the default record. -/
def sampleWorkspace : Workspace :=
  { id := 0, options := createOptions defaultSettings, freed := false }

/-- A running plugin with the document `"x=1"` open. -/
def activeState : State :=
  { stored := some defaultSettings, workspace := some sampleWorkspace, baseUrl := "/",
    activeFile := true, editor := some (sampleSession "x=1"),
    formatters := [("acode.plugin.ruff", extensions)], nextHandle := 1, log := [] }

/-! ## Settings record at construction -/

theorem constructor_of_missing (st : State) (r : Record)
    (h : hasOwnProperty r "line_length" = false) :
    constructor { st with stored := some r } =
      _saveSetting (emit (Event.settingsUpdate (some false)) { st with stored := none }) := by
  simp [constructor, h]

theorem constructor_of_present (st : State) (r : Record)
    (h : hasOwnProperty r "line_length" = true) :
    constructor { st with stored := some r } = { st with stored := some r } := by
  simp [constructor, h]

/-- C5: at construction, a stored record without `line_length` is replaced by the
    default record as a whole, and a stored record that has the seven fields is
    left as it is (nothing else in the state changes either). -/
theorem constructor_replaces_or_keeps (st : State) (old kept : Record)
    (hold : hasOwnProperty old "line_length" = false)
    (hkept : ∀ k ∈ requiredFields, hasOwnProperty kept k = true) :
    (constructor { st with stored := some old }).stored = some defaultSettings ∧
      constructor { st with stored := some kept } = { st with stored := some kept } := by
  refine ⟨?_, ?_⟩
  · rw [constructor_of_missing st old hold]
    rfl
  · exact constructor_of_present st kept (hkept "line_length" (by simp [requiredFields]))

theorem constructor_replaces_or_keeps_witness :
    (constructor { emptyState with
        stored := some [("indent", Val.str "tab"), ("width", Val.num 2)] }).stored
        = some defaultSettings ∧
      constructor { emptyState with stored := some (setProp defaultSettings "line_length" (Val.num 100)) }
        = { emptyState with stored := some (setProp defaultSettings "line_length" (Val.num 100)) } :=
  constructor_replaces_or_keeps emptyState
    [("indent", Val.str "tab"), ("width", Val.num 2)]
    (setProp defaultSettings "line_length" (Val.num 100))
    (by decide) (by decide)

/-- C6, as the code has it: only `line_length` is looked at.  A stored record
    without it is replaced by the default record; a stored record with it is
    kept whatever else it lacks; either way the record stored after
    construction has `line_length`. -/
theorem constructor_checks_line_length_only (st : State) (old : Record)
    (h : st.stored = some old) :
    (constructor st).stored
        = some (if hasOwnProperty old "line_length" then old else defaultSettings) ∧
      ∃ r, (constructor st).stored = some r ∧ hasOwnProperty r "line_length" = true := by
  obtain ⟨stored, workspace, baseUrl, activeFile, editor, formatters, nextHandle, log⟩ := st
  simp only at h
  subst h
  cases hl : hasOwnProperty old "line_length"
  · refine ⟨?_, defaultSettings, ?_, by decide⟩
    · simp [constructor, hl, _saveSetting, emit]
    · simp [constructor, hl, _saveSetting, emit]
  · refine ⟨?_, old, ?_, hl⟩
    · simp [constructor, hl]
    · simp [constructor, hl]

theorem constructor_checks_line_length_only_witness :
    (constructor { emptyState with stored := some [("line_length", Val.num 88)] }).stored
        = some (if hasOwnProperty [("line_length", Val.num 88)] "line_length"
            then [("line_length", Val.num 88)] else defaultSettings) ∧
      ∃ r, (constructor { emptyState with stored := some [("line_length", Val.num 88)] }).stored
          = some r ∧ hasOwnProperty r "line_length" = true :=
  constructor_checks_line_length_only
    { emptyState with stored := some [("line_length", Val.num 88)] }
    [("line_length", Val.num 88)] rfl

/-- C6, as stated, fails: the record `{line_length: 88}` lacks `indent_width`
    (and five more of the seven fields), yet construction keeps it, so the
    record stored afterwards is not the default one and still lacks the field. -/
theorem constructor_keeps_incomplete_record :
    "indent_width" ∈ requiredFields ∧
      hasOwnProperty [("line_length", Val.num 88)] "indent_width" = false ∧
      (constructor { emptyState with stored := some [("line_length", Val.num 88)] }).stored
        = some [("line_length", Val.num 88)] ∧
      (constructor { emptyState with stored := some [("line_length", Val.num 88)] }).stored
        ≠ some defaultSettings := by
  decide

/-! ## The undo-preserving replacement -/

theorem lookup_assign (r : Record) (k : String) (v : Val) :
    (assign r k v).lookup k = some v := by
  induction r with
  | nil => simp [assign, List.lookup]
  | cons p rest ih =>
    obtain ⟨k0, v0⟩ := p
    by_cases hk : k0 = k
    · subst hk
      simp [assign, List.lookup]
    · have hne : (k == k0) = false := by
        simpa using fun hc => hk hc.symm
      simp [assign, hk, List.lookup, hne, ih]

theorem lookup_assign_other (r : Record) (k k1 : String) (v : Val) (h : k1 ≠ k) :
    (assign r k v).lookup k1 = r.lookup k1 := by
  induction r with
  | nil =>
    have hne : (k1 == k) = false := by simpa using h
    simp [assign, List.lookup, hne]
  | cons p rest ih =>
    obtain ⟨k0, v0⟩ := p
    by_cases hk : k0 = k
    · subst hk
      have hne : (k1 == k0) = false := by simpa using h
      simp [assign, List.lookup, hne]
    · by_cases h1 : k1 = k0
      · subst h1
        simp [assign, hk, List.lookup]
      · have hne : (k1 == k0) = false := by simpa using h1
        simp [assign, hk, List.lookup, hne, ih]

theorem getProp_setProp (r : Record) (k : String) (v : Val)
    (h : k ≠ "__proto__" ∨ hasOwnProperty r k = true) :
    getProp (setProp r k v) k = v := by
  have hc : (k == "__proto__" && !hasOwnProperty r k) = false := by
    rcases h with h | h
    · simp [h]
    · simp [h]
  simp [setProp, hc, getProp, lookup_assign]

theorem getProp_setProp_other (r : Record) (k k1 : String) (v : Val) (h : k1 ≠ k) :
    getProp (setProp r k v) k1 = getProp r k1 := by
  unfold setProp
  split
  · rfl
  · simp [getProp, lookup_assign_other r k k1 v h]

theorem own_setValueToEditor (env : Env) (session : Session) (text : String) :
    (setValueToEditor env session text).undoManager.own =
      setProp
        (setProp
          (setProp
            (setProp (env.setValueUndo session text).1.own "$undoStack"
              (getProp session.undoManager.own "$undoStack"))
            "$redoStack" (getProp session.undoManager.own "$redoStack"))
          "$rev" (getProp session.undoManager.own "$rev"))
        "$mark" (getProp session.undoManager.own "$mark") :=
  rfl

/-- C10, as the code has it: after `setValueToEditor(session, formattedText)`
    the document holds `formattedText`, and each of the four fields
    `$undoStack`, `$redoStack`, `$rev` and `$mark` holds the value captured from
    the manager before the call, whatever the host's `setValue` assigned to it:
    the same number, or for a stack the same array object.  The elements of the
    arrays are not put back: the arrays hold what `setValue` left in them. -/
theorem setValueToEditor_restores_field_values (env : Env) (session : Session)
    (formattedText : String) :
    (setValueToEditor env session formattedText).value = formattedText ∧
      getProp (setValueToEditor env session formattedText).undoManager.own "$undoStack"
        = getProp session.undoManager.own "$undoStack" ∧
      getProp (setValueToEditor env session formattedText).undoManager.own "$redoStack"
        = getProp session.undoManager.own "$redoStack" ∧
      getProp (setValueToEditor env session formattedText).undoManager.own "$rev"
        = getProp session.undoManager.own "$rev" ∧
      getProp (setValueToEditor env session formattedText).undoManager.own "$mark"
        = getProp session.undoManager.own "$mark" ∧
      (setValueToEditor env session formattedText).arrays
        = (env.setValueUndo session formattedText).2 := by
  refine ⟨rfl, ?_, ?_, ?_, ?_, rfl⟩
  · rw [own_setValueToEditor,
      getProp_setProp_other _ _ _ _ (by decide), getProp_setProp_other _ _ _ _ (by decide),
      getProp_setProp_other _ _ _ _ (by decide), getProp_setProp _ _ _ (Or.inl (by decide))]
  · rw [own_setValueToEditor,
      getProp_setProp_other _ _ _ _ (by decide), getProp_setProp_other _ _ _ _ (by decide),
      getProp_setProp _ _ _ (Or.inl (by decide))]
  · rw [own_setValueToEditor,
      getProp_setProp_other _ _ _ _ (by decide), getProp_setProp _ _ _ (Or.inl (by decide))]
  · rw [own_setValueToEditor,
      getProp_setProp _ _ _ (Or.inl (by decide))]

/-- C10, as stated, fails: on a host that records the replacement in place
    before it resets the manager, `$undoStack` and `$redoStack` hold after the
    call the same array objects as before, but not what they held: the undo
    stack had one group and has two, the redo stack had one group and has none. -/
theorem setValueToEditor_keeps_recorded_group :
    getProp (setValueToEditor lintEnv (sampleSession "x=1") "x = 1\n").undoManager.own
        "$undoStack" = Val.ref 1 ∧
      getProp (sampleSession "x=1").undoManager.own "$undoStack" = Val.ref 1 ∧
      (sampleSession "x=1").stackElements "$undoStack" = [Val.ref 10] ∧
      (setValueToEditor lintEnv (sampleSession "x=1") "x = 1\n").stackElements "$undoStack"
        = [Val.ref 10, Val.ref 21] ∧
      (sampleSession "x=1").stackElements "$redoStack" = [Val.ref 20] ∧
      (setValueToEditor lintEnv (sampleSession "x=1") "x = 1\n").stackElements "$redoStack"
        = [] := by
  refine ⟨?_, ?_, ?_, ?_, ?_, ?_⟩ <;> decide

/-! ## `format()` without a document -/

theorem formatBody_of_inactive (env : Env) (st : State)
    (h : st.activeFile = false ∨ st.editor = none) :
    formatBody env st = (Except.ok (), st) := by
  unfold formatBody
  rcases h with h | h
  · rw [h]
  · rw [h]
    cases st.activeFile <;> rfl

theorem format_of_inactive (env : Env) (st : State)
    (h : st.activeFile = false ∨ st.editor = none) :
    format env st = (Except.ok (), emit Event.removeTitleLoader st) := by
  simp [format, tryFinally, formatBody_of_inactive env st h]

/-- C7: with no active file or no editor, `format()` returns normally and the
    only thing it does is the `loader.removeTitleLoader()` of its `finally`:
    no alert, no engine call, and the editor (text, annotations, undo manager)
    is the one it was. -/
theorem format_without_document (env : Env) (st : State)
    (h : st.activeFile = false ∨ st.editor = none) :
    format env st = (Except.ok (), emit Event.removeTitleLoader st) ∧
      (format env st).2.editor = st.editor ∧
      alerts (format env st).2.log = alerts st.log ∧
      checkCalls (format env st).2.log = checkCalls st.log ∧
      formatCalls (format env st).2.log = formatCalls st.log := by
  rw [format_of_inactive env st h]
  simp [emit, alerts, checkCalls, formatCalls, List.filterMap_append]

/-! ## `format()` on a document -/

theorem format_of_check_error (env : Env) (st : State) (session : Session) (w : Workspace)
    (e : JSError) (ha : st.activeFile = true) (hs : st.editor = some session)
    (hw : st.workspace = some w) (hc : env.engine.check w session.value = Except.error e) :
    format env st =
      (Except.ok (),
        emit Event.removeTitleLoader
          (emit (Event.alert "Ruff Plugin" ("Format failed: " ++ e.message))
            (emit (Event.engineCheck w session.value) (emit Event.showTitleLoader st)))) := by
  simp [format, tryFinally, formatBody, tryCatch, formatAttempt, ha, hs, hw, hc, emit]

theorem format_of_format_error (env : Env) (st : State) (session : Session) (w : Workspace)
    (ds : List Diagnostic) (e : JSError)
    (ha : st.activeFile = true) (hs : st.editor = some session)
    (hw : st.workspace = some w) (hc : env.engine.check w session.value = Except.ok ds)
    (hf : env.engine.format w session.value = Except.error e) :
    format env st =
      (Except.ok (),
        emit Event.removeTitleLoader
          (emit (Event.alert "Ruff Plugin" ("Format failed: " ++ e.message))
            (emit (Event.engineFormat w session.value)
              { emit (Event.engineCheck w session.value) (emit Event.showTitleLoader st) with
                editor := some (annotate session ds) }))) := by
  cases ds <;>
    simp [format, tryFinally, formatBody, tryCatch, formatAttempt, ha, hs, hw, hc, hf, emit,
      annotate]

theorem format_of_success (env : Env) (st : State) (session : Session) (w : Workspace)
    (ds : List Diagnostic) (res : String)
    (ha : st.activeFile = true) (hs : st.editor = some session)
    (hw : st.workspace = some w) (hc : env.engine.check w session.value = Except.ok ds)
    (hf : env.engine.format w session.value = Except.ok res) :
    format env st =
      (Except.ok (),
        emit Event.removeTitleLoader
          { emit (Event.engineFormat w session.value)
              (emit (Event.engineCheck w session.value) (emit Event.showTitleLoader st)) with
            editor := some (setValueToEditor env (annotate session ds) res) }) := by
  cases ds <;>
    simp [format, tryFinally, formatBody, tryCatch, formatAttempt, ha, hs, hw, hc, hf, emit,
      annotate]

theorem published_annotate (session : Session) (ds : List Diagnostic) (hne : ds ≠ []) :
    published (annotate session ds).calls = published session.calls ++ [ds.map toAnnotation] := by
  cases ds with
  | nil => exact absurd rfl hne
  | cons d rest =>
    simp [annotate, Session.clearAnnotations, Session.setAnnotations, published,
      List.filterMap_append]

theorem published_setValueToEditor (env : Env) (session : Session) (res : String) :
    published (setValueToEditor env session res).calls = published session.calls := by
  simp [setValueToEditor, Session.setValue, published, List.filterMap_append]

theorem annotations_setValueToEditor (env : Env) (session : Session) (res : String) :
    (setValueToEditor env session res).annotations = session.annotations := by
  simp [setValueToEditor, Session.setValue]

theorem annotations_annotate (session : Session) (ds : List Diagnostic) :
    (annotate session ds).annotations = if ds = [] then session.annotations else ds.map toAnnotation := by
  cases ds <;> simp [annotate, Session.clearAnnotations, Session.setAnnotations]

theorem value_annotate (session : Session) (ds : List Diagnostic) :
    (annotate session ds).value = session.value := by
  cases ds <;> simp [annotate, Session.clearAnnotations, Session.setAnnotations]

theorem setValueCalls_annotate (session : Session) (ds : List Diagnostic) :
    setValueCalls (annotate session ds).calls = setValueCalls session.calls := by
  cases ds <;>
    simp [annotate, Session.clearAnnotations, Session.setAnnotations, setValueCalls,
      List.filterMap_append]

/-- C1: when `check(code)` returns a non-empty list `ds`, `format()` makes one
    `session.setAnnotations` call, with the list `ds.map toAnnotation`, which is
    also what the session then displays.  That list is as long as `ds`, and its
    `i`-th element has the row of the `i`-th diagnostic minus one, its column,
    the text `code ++ ": " ++ message` and the type `"error"`.  The diagnostic
    `E501` at row 5, column 2 becomes the entry at row 4, column 2. -/
theorem format_publishes_annotations (env : Env) (st : State) (session : Session)
    (w : Workspace) (ds : List Diagnostic)
    (ha : st.activeFile = true) (hs : st.editor = some session) (hw : st.workspace = some w)
    (hc : env.engine.check w session.value = Except.ok ds) (hne : ds ≠ []) :
    (∃ s, (format env st).2.editor = some s ∧
        published s.calls = published session.calls ++ [ds.map toAnnotation] ∧
        s.annotations = ds.map toAnnotation) ∧
      (ds.map toAnnotation).length = ds.length ∧
      (∀ i (hi : i < ds.length),
        (ds.map toAnnotation)[i]? =
          some { row := ds[i].start_location.row - 1
                 column := ds[i].start_location.column
                 text := ds[i].code ++ ": " ++ ds[i].message
                 type := "error" }) ∧
      toAnnotation
          { start_location := { row := 5, column := 2 }, code := "E501",
            message := "line too long" }
        = { row := 4, column := 2, text := "E501: line too long", type := "error" } := by
  refine ⟨?_, by simp, ?_, by decide⟩
  · cases hf : env.engine.format w session.value with
    | error e =>
      rw [format_of_format_error env st session w ds e ha hs hw hc hf]
      refine ⟨annotate session ds, rfl, published_annotate session ds hne, ?_⟩
      rw [annotations_annotate, if_neg hne]
    | ok res =>
      rw [format_of_success env st session w ds res ha hs hw hc hf]
      refine ⟨setValueToEditor env (annotate session ds) res, rfl, ?_, ?_⟩
      · rw [published_setValueToEditor, published_annotate session ds hne]
      · rw [annotations_setValueToEditor, annotations_annotate, if_neg hne]
  · intro i hi
    simp [hi, toAnnotation]

theorem format_publishes_annotations_witness :
    (∃ s, (format lintEnv activeState).2.editor = some s ∧
        published s.calls = published (sampleSession "x=1").calls ++ [[lineTooLong].map toAnnotation] ∧
        s.annotations = [lineTooLong].map toAnnotation) ∧
      ([lineTooLong].map toAnnotation).length = [lineTooLong].length ∧
      (∀ i (hi : i < [lineTooLong].length),
        ([lineTooLong].map toAnnotation)[i]? =
          some { row := [lineTooLong][i].start_location.row - 1
                 column := [lineTooLong][i].start_location.column
                 text := [lineTooLong][i].code ++ ": " ++ [lineTooLong][i].message
                 type := "error" }) ∧
      toAnnotation
          { start_location := { row := 5, column := 2 }, code := "E501",
            message := "line too long" }
        = { row := 4, column := 2, text := "E501: line too long", type := "error" } :=
  format_publishes_annotations lintEnv activeState (sampleSession "x=1") sampleWorkspace
    [lineTooLong] rfl rfl rfl rfl (by decide)

theorem format_without_document_witness :
    format cleanEnv { activeState with activeFile := false }
        = (Except.ok (), emit Event.removeTitleLoader { activeState with activeFile := false }) ∧
      (format cleanEnv { activeState with activeFile := false }).2.editor
        = some (sampleSession "x=1") ∧
      alerts (format cleanEnv { activeState with activeFile := false }).2.log = alerts [] ∧
      checkCalls (format cleanEnv { activeState with activeFile := false }).2.log = checkCalls [] ∧
      formatCalls (format cleanEnv { activeState with activeFile := false }).2.log
        = formatCalls [] :=
  format_without_document cleanEnv { activeState with activeFile := false } (Or.inl rfl)

/-- C2: when `check` throws an error with message `m`, or `check` returns and
    `format` throws one, `format()` returns normally, shows one alert, whose
    text is `"Format failed: " ++ m`, leaves the document text as it was
    without any `session.setValue` call, and has invoked the engine's `format`
    only in the case where `check` returned. -/
theorem format_engine_failure (env : Env) (st : State) (session : Session) (w : Workspace)
    (m : String)
    (ha : st.activeFile = true) (hs : st.editor = some session) (hw : st.workspace = some w)
    (hfail : env.engine.check w session.value = Except.error ⟨m⟩ ∨
      ((∃ ds, env.engine.check w session.value = Except.ok ds) ∧
        env.engine.format w session.value = Except.error ⟨m⟩)) :
    (format env st).1 = Except.ok () ∧
      alerts (format env st).2.log
        = alerts st.log ++ [("Ruff Plugin", "Format failed: " ++ m)] ∧
      (∃ s, (format env st).2.editor = some s ∧ s.value = session.value ∧
        setValueCalls s.calls = setValueCalls session.calls) ∧
      formatCalls (format env st).2.log
        = formatCalls st.log ++
            (match env.engine.check w session.value with
              | Except.error _ => []
              | Except.ok _ => [(w, session.value)]) := by
  rcases hfail with hc | ⟨⟨ds, hc⟩, hf⟩
  · rw [format_of_check_error env st session w ⟨m⟩ ha hs hw hc, hc]
    refine ⟨rfl, ?_, ⟨session, ?_, rfl, rfl⟩, ?_⟩
    · simp [emit, alerts, List.filterMap_append]
    · simp [emit, hs]
    · simp [emit, formatCalls, List.filterMap_append]
  · rw [format_of_format_error env st session w ds ⟨m⟩ ha hs hw hc hf, hc]
    refine ⟨rfl, ?_, ⟨annotate session ds, ?_, value_annotate session ds,
      setValueCalls_annotate session ds⟩, ?_⟩
    · simp [emit, alerts, List.filterMap_append]
    · simp [emit]
    · simp [emit, formatCalls, List.filterMap_append]

theorem format_engine_failure_witness :
    ((format checkThrowsEnv activeState).1 = Except.ok () ∧
      alerts (format checkThrowsEnv activeState).2.log
        = alerts activeState.log ++ [("Ruff Plugin", "Format failed: " ++ "unreachable")] ∧
      (∃ s, (format checkThrowsEnv activeState).2.editor = some s ∧
        s.value = (sampleSession "x=1").value ∧
        setValueCalls s.calls = setValueCalls (sampleSession "x=1").calls) ∧
      formatCalls (format checkThrowsEnv activeState).2.log = formatCalls activeState.log ++ []) ∧
    ((format formatThrowsEnv activeState).1 = Except.ok () ∧
      alerts (format formatThrowsEnv activeState).2.log
        = alerts activeState.log ++
            [("Ruff Plugin", "Format failed: " ++ "Expected an expression")] ∧
      (∃ s, (format formatThrowsEnv activeState).2.editor = some s ∧
        s.value = (sampleSession "x=1").value ∧
        setValueCalls s.calls = setValueCalls (sampleSession "x=1").calls) ∧
      formatCalls (format formatThrowsEnv activeState).2.log
        = formatCalls activeState.log ++ [(sampleWorkspace, (sampleSession "x=1").value)]) :=
  ⟨format_engine_failure checkThrowsEnv activeState (sampleSession "x=1") sampleWorkspace
      "unreachable" rfl rfl rfl (Or.inl rfl),
    format_engine_failure formatThrowsEnv activeState (sampleSession "x=1") sampleWorkspace
      "Expected an expression" rfl rfl rfl (Or.inr ⟨⟨[lineTooLong], rfl⟩, rfl⟩)⟩

/-- C9, as the code has it: after a `format()` in which `check` returned `ds`
    and `format` returned `res`, the document holds `res`; the annotations on
    display are those mapped from `ds` when `ds` is not empty, and are the
    ones displayed before the call when `ds` is empty. -/
theorem format_annotations_after_success (env : Env) (st : State) (session : Session)
    (w : Workspace) (ds : List Diagnostic) (res : String)
    (ha : st.activeFile = true) (hs : st.editor = some session) (hw : st.workspace = some w)
    (hc : env.engine.check w session.value = Except.ok ds)
    (hf : env.engine.format w session.value = Except.ok res) :
    (format env st).1 = Except.ok () ∧
      ∃ s, (format env st).2.editor = some s ∧ s.value = res ∧
        s.annotations = if ds = [] then session.annotations else ds.map toAnnotation := by
  rw [format_of_success env st session w ds res ha hs hw hc hf]
  refine ⟨rfl, setValueToEditor env (annotate session ds) res, rfl, ?_, ?_⟩
  · simp [setValueToEditor, Session.setValue]
  · rw [annotations_setValueToEditor, annotations_annotate]

theorem format_annotations_after_success_witness :
    (format lintEnv activeState).1 = Except.ok () ∧
      ∃ s, (format lintEnv activeState).2.editor = some s ∧ s.value = "x = 1\n" ∧
        s.annotations =
          if [lineTooLong] = [] then (sampleSession "x=1").annotations
          else [lineTooLong].map toAnnotation :=
  format_annotations_after_success lintEnv activeState (sampleSession "x=1") sampleWorkspace
    [lineTooLong] "x = 1\n" rfl rfl rfl rfl rfl

/-- C9, as stated, fails: with the annotation `F401: unused` on display, a run
    whose `check` returns the empty list succeeds, and the annotation is still
    on display afterwards, while the list mapped from the diagnostics of that
    run is empty. -/
theorem format_keeps_stale_annotations :
    cleanEnv.engine.check sampleWorkspace "x=1" = Except.ok [] ∧
      (format cleanEnv activeState).1 = Except.ok () ∧
      (format cleanEnv activeState).2.editor.map (fun s => s.value) = some "x = 1\n" ∧
      (format cleanEnv activeState).2.editor.map (fun s => s.annotations)
        = some [{ row := 0, column := 0, text := "F401: unused", type := "error" }] ∧
      (format cleanEnv activeState).2.editor.map (fun s => s.annotations)
        ≠ some (([] : List Diagnostic).map toAnnotation) ∧
      (format cleanEnv activeState).2.editor.map (fun s => published s.calls) = some [] := by
  refine ⟨rfl, rfl, ?_, ?_, ?_, ?_⟩ <;> decide

/-! ## The settings callback -/

theorem calls_of_format (env : Env) (st : State) (w : Workspace) (hw : st.workspace = some w) :
    checkCalls (format env st).2.log
        = checkCalls st.log ++
            (match st.activeFile, st.editor with
              | true, some session => [(w, session.value)]
              | _, _ => []) ∧
      formatCalls (format env st).2.log
        = formatCalls st.log ++
            (match st.activeFile, st.editor with
              | true, some session =>
                (match env.engine.check w session.value with
                  | Except.ok _ => [(w, session.value)]
                  | Except.error _ => [])
              | _, _ => []) := by
  cases ha : st.activeFile with
  | false =>
    rw [format_of_inactive env st (Or.inl ha)]
    simp [emit, checkCalls, formatCalls, List.filterMap_append]
  | true =>
    cases hs : st.editor with
    | none =>
      rw [format_of_inactive env st (Or.inr hs)]
      simp [emit, checkCalls, formatCalls, List.filterMap_append]
    | some session =>
      cases hc : env.engine.check w session.value with
      | error e =>
        rw [format_of_check_error env st session w e ha hs hw hc]
        simp [emit, checkCalls, formatCalls, List.filterMap_append, hc]
      | ok ds =>
        cases hf : env.engine.format w session.value with
        | error e =>
          rw [format_of_format_error env st session w ds e ha hs hw hc hf]
          simp [emit, checkCalls, formatCalls, List.filterMap_append, hc]
        | ok res =>
          rw [format_of_success env st session w ds res ha hs hw hc hf]
          simp [emit, checkCalls, formatCalls, List.filterMap_append, hc]

theorem cb_of_accepted (env : Env) (st : State) (s : Record) (key : String) (value : Val)
    (h : st.stored = some s)
    (hfree : ∀ w0, st.workspace = some w0 → env.engine.free w0 = Except.ok ())
    (hcreate : env.engine.create (createOptions (setProp s key value)) = Except.ok ()) :
    cb env key value st =
      (Except.ok (),
        { st with
          stored := some (setProp s key value)
          workspace := some (rebuilt st s key value)
          nextHandle := st.nextHandle + 1
          log := st.log ++ Event.settingsUpdate none ::
            ((st.workspace.map Event.engineFree).toList ++
              [Event.engineNew (rebuilt st s key value)]) }) := by
  cases hw : st.workspace with
  | none =>
    simp [cb, h, hw, freeIfPresent, createWorkspace, emit, rebuilt, hcreate]
  | some w0 =>
    have hf := hfree w0 hw
    simp [cb, h, hw, freeIfPresent, freeWorkspace, createWorkspace, emit, rebuilt, hcreate, hf]

/-- C4, as the code has it: with a settings record `s` stored, when `free()`
    returns on the handle in `this.workspace` (if there is one), `new Workspace`
    accepts the options of the updated record, and `key` is not a `__proto__`
    that `s` lacks as an own property, `cb(key, value)` returns normally and
    leaves: the record `s` with `key` set to `value`; in `this.workspace` a
    handle that the `new Workspace` call at the end of this very callback
    produced (after the previous handle, if any, was freed), not freed, whose
    options are read off the updated record field by field.  A `format()` run
    right after makes its `check` and `format` calls on that handle and on no
    other. -/
theorem cb_rebuilds_engine_when_accepted (env : Env) (st : State) (s : Record) (key : String)
    (value : Val) (h : st.stored = some s)
    (hkey : key ≠ "__proto__" ∨ hasOwnProperty s key = true)
    (hfree : ∀ w0, st.workspace = some w0 → env.engine.free w0 = Except.ok ())
    (hcreate : env.engine.create (createOptions (setProp s key value)) = Except.ok ()) :
    (cb env key value st).1 = Except.ok () ∧
      (cb env key value st).2.stored = some (setProp s key value) ∧
      getProp (setProp s key value) key = value ∧
      (cb env key value st).2.workspace = some (rebuilt st s key value) ∧
      (cb env key value st).2.log
        = st.log ++ Event.settingsUpdate none ::
            ((st.workspace.map Event.engineFree).toList ++
              [Event.engineNew (rebuilt st s key value)]) ∧
      (rebuilt st s key value).freed = false ∧
      (rebuilt st s key value).options =
        { line_length := getProp (setProp s key value) "line_length"
          indent_width := getProp (setProp s key value) "indent_width"
          format :=
            { indent_style := getProp (setProp s key value) "indent_style"
              quote_style := getProp (setProp s key value) "quote_style"
              line_ending := getProp (setProp s key value) "line_ending"
              skip_magic_trailing_comma :=
                getProp (setProp s key value) "skip_magic_trailing_comma"
              docstring_code_format :=
                getProp (setProp s key value) "docstring_code_format" } } ∧
      checkCalls (format env (cb env key value st).2).2.log
        = checkCalls (cb env key value st).2.log ++
            (match st.activeFile, st.editor with
              | true, some session => [(rebuilt st s key value, session.value)]
              | _, _ => []) ∧
      formatCalls (format env (cb env key value st).2).2.log
        = formatCalls (cb env key value st).2.log ++
            (match st.activeFile, st.editor with
              | true, some session =>
                (match env.engine.check (rebuilt st s key value) session.value with
                  | Except.ok _ => [(rebuilt st s key value, session.value)]
                  | Except.error _ => [])
              | _, _ => []) := by
  have hcb := cb_of_accepted env st s key value h hfree hcreate
  have hcalls := calls_of_format env (cb env key value st).2 (rebuilt st s key value)
    (by rw [hcb])
  rw [hcb] at hcalls ⊢
  exact ⟨rfl, rfl, getProp_setProp s key value hkey, rfl, rfl, rfl, rfl, hcalls.1, hcalls.2⟩

theorem cb_rebuilds_engine_when_accepted_witness :
    (cb lintEnv "line_length" (Val.num 100) activeState).1 = Except.ok () ∧
      (cb lintEnv "line_length" (Val.num 100) activeState).2.stored
        = some (setProp defaultSettings "line_length" (Val.num 100)) ∧
      getProp (setProp defaultSettings "line_length" (Val.num 100)) "line_length"
        = Val.num 100 ∧
      (cb lintEnv "line_length" (Val.num 100) activeState).2.workspace
        = some (rebuilt activeState defaultSettings "line_length" (Val.num 100)) ∧
      (cb lintEnv "line_length" (Val.num 100) activeState).2.log
        = [Event.settingsUpdate none, Event.engineFree sampleWorkspace,
            Event.engineNew (rebuilt activeState defaultSettings "line_length" (Val.num 100))] ∧
      (rebuilt activeState defaultSettings "line_length" (Val.num 100)).freed = false ∧
      (rebuilt activeState defaultSettings "line_length" (Val.num 100)).options =
        { line_length := Val.num 100
          indent_width := Val.num 4
          format :=
            { indent_style := Val.str "space"
              quote_style := Val.str "double"
              line_ending := Val.str "auto"
              skip_magic_trailing_comma := Val.bool false
              docstring_code_format := Val.bool false } } ∧
      checkCalls (format lintEnv (cb lintEnv "line_length" (Val.num 100) activeState).2).2.log
        = [(rebuilt activeState defaultSettings "line_length" (Val.num 100), "x=1")] ∧
      formatCalls (format lintEnv (cb lintEnv "line_length" (Val.num 100) activeState).2).2.log
        = [(rebuilt activeState defaultSettings "line_length" (Val.num 100), "x=1")] :=
  cb_rebuilds_engine_when_accepted lintEnv activeState defaultSettings "line_length"
    (Val.num 100) rfl (Or.inl (by decide))
    (fun w0 hw => by
      have hw0 : w0 = sampleWorkspace := (Option.some.inj hw).symm
      rw [hw0]
      rfl)
    rfl

/-- C4, as stated, fails at three updates of the default record.  At
    `cb("line_length", 0)` the old handle is freed, `new Workspace` rejects the
    options and `cb` throws: `this.workspace` keeps the freed handle built with
    line length 88, and the `format()` that follows calls `check` on it.  At
    `cb("__proto__", 1)` the callback returns and the stored record is the
    default record as it was, with no property `__proto__`.  At
    `cb("line_length", 100)` after a `destroy()`, `free()` throws on the freed
    handle, `cb` throws, and no new handle is constructed. -/
theorem cb_leaves_stale_handle :
    (cb lintEnv "line_length" (Val.num 0) activeState).1
        = Except.error ⟨"line-length must be between 1 and 320"⟩ ∧
      (cb lintEnv "line_length" (Val.num 0) activeState).2.stored
        = some (setProp defaultSettings "line_length" (Val.num 0)) ∧
      (cb lintEnv "line_length" (Val.num 0) activeState).2.workspace
        = some { sampleWorkspace with freed := true } ∧
      sampleWorkspace.options.line_length = Val.num 88 ∧
      checkCalls (format lintEnv (cb lintEnv "line_length" (Val.num 0) activeState).2).2.log
        = [({ sampleWorkspace with freed := true }, "x=1")] ∧
      (cb lintEnv "__proto__" (Val.num 1) activeState).1 = Except.ok () ∧
      (cb lintEnv "__proto__" (Val.num 1) activeState).2.stored = some defaultSettings ∧
      hasOwnProperty defaultSettings "__proto__" = false ∧
      (cb lintEnv "line_length" (Val.num 100) (destroy lintEnv activeState).2).1
        = Except.error ⟨"null pointer passed to rust"⟩ ∧
      (cb lintEnv "line_length" (Val.num 100) (destroy lintEnv activeState).2).2.workspace
        = some { sampleWorkspace with freed := true } := by
  refine ⟨rfl, ?_, ?_, ?_, ?_, rfl, ?_, ?_, rfl, ?_⟩ <;> decide

/-! ## Teardown -/

/-- C8, at the run `constructor(); init(); destroy(); destroy()`: the first
    `destroy()` frees the handle and unregisters the formatter but leaves the
    freed handle in `this.workspace`, so the second `destroy()` calls `free()`
    on that same handle once more; with a `free()` that throws on a freed
    handle, the second `destroy()` throws. -/
theorem destroy_twice_frees_twice :
    (init lintEnv (constructor emptyState)).1 = Except.ok () ∧
      (init lintEnv (constructor emptyState)).2.workspace = some sampleWorkspace ∧
      (destroy lintEnv (init lintEnv (constructor emptyState)).2).1 = Except.ok () ∧
      (destroy lintEnv (init lintEnv (constructor emptyState)).2).2.formatters = [] ∧
      (destroy lintEnv (init lintEnv (constructor emptyState)).2).2.workspace
        = some { sampleWorkspace with freed := true } ∧
      freeCalls (destroy lintEnv (init lintEnv (constructor emptyState)).2).2.log
        = [sampleWorkspace] ∧
      freeCalls
          (destroy lintEnv (destroy lintEnv (init lintEnv (constructor emptyState)).2).2).2.log
        = [sampleWorkspace, { sampleWorkspace with freed := true }] ∧
      (destroy lintEnv (destroy lintEnv (init lintEnv (constructor emptyState)).2).2).1
        = Except.error ⟨"null pointer passed to rust"⟩ := by
  refine ⟨rfl, ?_, rfl, ?_, ?_, ?_, ?_, rfl⟩ <;> decide

end RuffFormatter
